import Mathlib

/-!
Shallow embedding of the saucelabs/webserver lifecycle controller
(`webserver.go`, `options.go`, `internal.go`) together with the pieces of
the Go standard library and of `saucelabs/customerror` that the embedded
code calls.  Pure data and control flow are translated directly from the
source; the external world of one `Start` run (channel contents, results
of `http.Server.Shutdown` and `http.Server.Close`) is passed in
explicitly as an environment.
-/

namespace WebServer

/-- Go `time.Duration`: a signed 64-bit count of nanoseconds.  The values
appearing in this development are far from the 2^63 bound, so plain `Int`
is used. -/
abbrev GoDuration := Int

/-- One second, in nanoseconds. -/
def second : GoDuration := 1000000000

/-- The two catchable termination signals the server subscribes to:
`os.Interrupt` (SIGINT) and `syscall.SIGTERM` (`webserver.go:186`). -/
inductive Sig
  | sigint
  | sigterm
deriving DecidableEq, BEq, Repr

/-- Model of the Go `error` values that can flow through `Start`:
the `http.ErrServerClosed` sentinel, `context.DeadlineExceeded`,
`os.ErrDeadlineExceeded`, a plain error from the network layer
(bind, serve or close failures, identified by message), and the two
shapes of `saucelabs/customerror` errors the package builds: a bare
message error, and a message wrapping a cause via
`customerror.WithError` (which implements `Unwrap`). -/
inductive GoError
  | errServerClosed
  | deadlineExceeded
  | osDeadlineExceeded
  | netError (msg : String)
  | customMsg (msg : String)
  | customWrap (msg : String) (cause : GoError)
deriving DecidableEq, BEq, Repr

/-- Go `errors.Is`: repeatedly compare with the target, unwrapping the
cause chain (`customerror` errors built `WithError` unwrap to their
cause; nothing else in this code unwraps). -/
def errorsIs : GoError → GoError → Bool
  | e@(GoError.customWrap _ cause), target => e == target || errorsIs cause target
  | e, target => e == target

/-- Go `os.IsTimeout`: true exactly for errors implementing the timeout
interface with `Timeout() = true`.  Of the errors modelled here only
`context.DeadlineExceeded` and `os.ErrDeadlineExceeded` do. -/
def osIsTimeout : GoError → Bool
  | GoError.deadlineExceeded => true
  | GoError.osDeadlineExceeded => true
  | _ => false

/-- Translation of `isTimeoutError` (`internal.go`): a nilable error is a
timeout when `errors.Is` relates it to `context.DeadlineExceeded` or
`os.ErrDeadlineExceeded`, or `os.IsTimeout` reports true.  A nil error
(`none`) fails all three tests. -/
def isTimeoutError : Option GoError → Bool
  | none => false
  | some err =>
      errorsIs err GoError.deadlineExceeded ||
      errorsIs err GoError.osDeadlineExceeded ||
      osIsTimeout err

/-- Translation of the `Timeout` struct (`webserver.go:80`): the five
duration budgets. -/
structure Timeout where
  readTimeout : GoDuration
  requestTimeout : GoDuration
  shutdownInFlightTimeout : GoDuration
  shutdownTaskTimeout : GoDuration
  writeTimeout : GoDuration
deriving DecidableEq, Repr

/-- The defaults installed by `New` (`webserver.go:269`): read 3s,
request 1s, in-flight 3s, task 10s, write 3s. -/
def defaultTimeouts : Timeout :=
  { readTimeout := 3 * second
    requestTimeout := 1 * second
    shutdownInFlightTimeout := 3 * second
    shutdownTaskTimeout := 10 * second
    writeTimeout := 3 * second }

/-- The signal set passed to `signal.Notify` (`webserver.go:186`):
`os.Interrupt` and `syscall.SIGTERM`. -/
def notifiedSignals : List Sig := [Sig.sigint, Sig.sigterm]

/-- The external events one `Start` run consumes after taking the signal
branch of its select: the result of `s.server.Shutdown(ctx)` (`none`
means every in-flight request drained inside `ShutdownInFlightTimeout`),
the result of `s.server.Close()`, and the terminal value the
`ListenAndServe` goroutine places on the `serverErr` channel (after a
`Shutdown`, `ListenAndServe` returns `http.ErrServerClosed`). -/
structure ShutdownEnv where
  shutdownResult : Option GoError
  closeResult : Option GoError
  finalServerErr : GoError
deriving DecidableEq, Repr

/-- The control path by which `Start` reached its return statement:
`failedImmediate` is `return err` at `webserver.go:193`, `shutdownError`
is `return shutdownErr` at `webserver.go:233`, `gracefulClean` is
`return <-serverErr` at `webserver.go:242`. -/
inductive StartPath
  | failedImmediate
  | shutdownError
  | gracefulClean
deriving DecidableEq, BEq, Repr

/-- Observable outcome of one `Start` run: the returned error (`none`
models a nil return, which no path of this code actually produces), the
return path, the signal subscriptions still armed when `Start` returns,
the `signal.Reset` calls made, whether keep-alives were disabled,
whether `Shutdown` and `Close` were invoked on the listener handle, and
the extra wait performed by `time.Sleep(s.ShutdownTaskTimeout)`
(`webserver.go:239`), 0 when that statement never ran. -/
structure StartResult where
  ret : Option GoError
  path : StartPath
  signalsRegistered : List Sig
  resetCalled : List Sig
  keepAlivesDisabled : Bool
  shutdownAttempted : Bool
  closeCalled : Bool
  taskWaitNs : GoDuration
deriving DecidableEq, Repr

/-- The `case err := <-serverErr` branch of the select
(`webserver.go:192`): the listener error is returned verbatim and
immediately; no reset, no shutdown, no close, no task wait, and the
`signal.Notify` subscription for both signals is still armed. -/
def startListenerBranch (err : GoError) : StartResult :=
  { ret := some err
    path := StartPath.failedImmediate
    signalsRegistered := notifiedSignals
    resetCalled := []
    keepAlivesDisabled := false
    shutdownAttempted := false
    closeCalled := false
    taskWaitNs := 0 }

/-- Message of `customerror.NewFailedToError("gracefully shutdown,
timeout reached. Stopping hard...", ...)` (`webserver.go:215`);
`NewFailedToError` prefixes the message with `failed to `. -/
def gracefulTimeoutMsg : String :=
  "failed to gracefully shutdown, timeout reached. Stopping hard..."

/-- Message of `customerror.NewFailedToError("hardly shutdown the
server", ...)` (`webserver.go:225`). -/
def hardShutdownMsg : String := "failed to hardly shutdown the server"

/-- The `case sig := <-osSignals` branch of the select
(`webserver.go:194`), translated statement by statement:
`signal.Reset(sig)` disarms only the received signal; `shutdownErrDecl`
is the freshly declared `var shutdownErr error` (nil); when
`s.server.Shutdown(ctx)` errors, the source tests
`isTimeoutError(shutdownErr)` — the still-nil variable, not `err` — so
the wrapping branch takes `shutdownErr = err` instead, then a failing
`s.server.Close()` overwrites `shutdownErr` wholesale; a non-nil
`shutdownErr` is returned at once, otherwise the run sleeps
`ShutdownTaskTimeout` and returns the value collected from the
`serverErr` channel. -/
def startSignalBranch (cfg : Timeout) (sig : Sig) (env : ShutdownEnv) :
    StartResult :=
  let registered := notifiedSignals.filter (fun s => s != sig)
  let shutdownErrDecl : Option GoError := none
  match env.shutdownResult with
  | none =>
      { ret := some env.finalServerErr
        path := StartPath.gracefulClean
        signalsRegistered := registered
        resetCalled := [sig]
        keepAlivesDisabled := true
        shutdownAttempted := true
        closeCalled := false
        taskWaitNs := cfg.shutdownTaskTimeout }
  | some err =>
      let shutdownErr1 : Option GoError :=
        if isTimeoutError shutdownErrDecl then
          some (GoError.customWrap gracefulTimeoutMsg err)
        else
          some err
      let shutdownErr2 : Option GoError :=
        match env.closeResult with
        | some closeErr => some (GoError.customWrap hardShutdownMsg closeErr)
        | none => shutdownErr1
      { ret := shutdownErr2
        path := StartPath.shutdownError
        signalsRegistered := registered
        resetCalled := [sig]
        keepAlivesDisabled := true
        shutdownAttempted := true
        closeCalled := true
        taskWaitNs := 0 }

/-- State of the two channels at the moment the select at
`webserver.go:190` is evaluated: the value sitting in `serverErr`, if
any, and the pending signal in `osSignals`, if any. -/
structure SelectState where
  serverErrReady : Option GoError
  signalReady : Option Sig
deriving DecidableEq, Repr

/-- Which select case can fire.  Per the Go language specification, when
several cases of a `select` are ready one is chosen via a uniform
pseudo-random selection, so every ready case is a possible pick. -/
inductive SelectPick
  | listener
  | signal
deriving DecidableEq, BEq, Repr

/-- A pick is possible exactly when its channel has a value ready. -/
def pickPossible (st : SelectState) : SelectPick → Bool
  | SelectPick.listener => st.serverErrReady.isSome
  | SelectPick.signal => st.signalReady.isSome

/-- One `Start` run, given the channel state at the select, the case the
select fires (meaningful only when possible), and the shutdown
environment.  Returns `none` when the chosen case has no value ready. -/
def startRun (cfg : Timeout) (st : SelectState) (pick : SelectPick)
    (env : ShutdownEnv) : Option StartResult :=
  match pick, st.serverErrReady, st.signalReady with
  | SelectPick.listener, some err, _ => some (startListenerBranch err)
  | SelectPick.signal, _, some sig => some (startSignalBranch cfg sig env)
  | _, _, _ => none

/-- Callers of this package treat the run as a clean stop when the
returned error is nil or is the closed sentinel: both `webserver_test.go`
and the package example check `errors.Is(err, http.ErrServerClosed)` and
report `server stopped`. -/
def isCleanStopOutcome : Option GoError → Bool
  | none => true
  | some e => errorsIs e GoError.errServerClosed

/-- What the operating system does with a termination signal delivered
after `Start` has returned from its select: a signal still registered
with the runtime `signal` package is intercepted and parked on the
(no-longer-read) channel, while an unregistered one gets the OS default
disposition, terminating the process. -/
inductive SigDisposition
  | interceptedToChannel
  | osDefaultTerminate
deriving DecidableEq, Repr

/-- Disposition of signal `s` after a run with result `r`. -/
def dispositionAfter (r : StartResult) (s : Sig) : SigDisposition :=
  if r.signalsRegistered.contains s then SigDisposition.interceptedToChannel
  else SigDisposition.osDefaultTerminate

/-- An HTTP response as the client sees it: status code and body. -/
structure HttpResponse where
  status : Nat
  body : String
deriving DecidableEq, Repr

/-- Message of `ErrRequesTimeout` (`webserver.go:40`):
`customerror.NewFailedToError("finish request, timed out",
customerror.WithStatusCode(http.StatusRequestTimeout))`.  `Start` passes
`ErrRequesTimeout.Error()` as the timeout body of
`http.TimeoutHandler`. -/
def errRequesTimeoutBody : String := "failed to finish request, timed out"

/-- Model of Go `net/http.TimeoutHandler(h, dt, msg)`: when the inner
handler has not produced its response within `dt`, the wrapper itself
sends status 503 (`http.StatusServiceUnavailable`) with body `msg`, and
every later write the inner handler attempts receives
`http.ErrHandlerTimeout` and is discarded (the `Bool` of the result
records that the late writes were discarded).  Otherwise the inner
response is sent unchanged. -/
def timeoutHandler (dt : GoDuration) (msg : String)
    (handlerTime : GoDuration) (handlerResp : HttpResponse) :
    HttpResponse × Bool :=
  if handlerTime > dt then ({ status := 503, body := msg }, true)
  else (handlerResp, false)

/-- One request served by the server `Start` builds (`webserver.go:163`):
the connection read deadline (`ReadTimeout`) guards reading the request,
the composed handler is `http.TimeoutHandler(router, RequestTimeout,
ErrRequesTimeout.Error())`, and the connection write deadline
(`WriteTimeout`) guards the window up to the end of the response write.
`none` models a connection killed by a read or write deadline, so the
client receives no response at all. -/
def serveRequest (cfg : Timeout) (requestReadTime handlerTime : GoDuration)
    (handlerResp : HttpResponse) : Option (HttpResponse × Bool) :=
  if requestReadTime > cfg.readTimeout then none
  else
    let out := timeoutHandler cfg.requestTimeout errRequesTimeoutBody
      handlerTime handlerResp
    let respTime := if out.2 then cfg.requestTimeout else handlerTime
    if respTime < cfg.writeTimeout then some out else none

/-- Translation of the `Logging` struct (`webserver.go:68`). -/
structure Logging where
  consoleLevel : String
  requestLevel : String
  filepath : String
deriving DecidableEq, Repr

/-- A route: the `Handler` struct of the `handler` package reduced to its
registration data (method and path); the handler function itself plays
no role in the construction claims. -/
structure Handler where
  method : String
  path : String
deriving DecidableEq, Repr

/-- State of a `Server` (`webserver.go:105`) as far as construction is
concerned: the exported configuration fields, the pre-loaded handlers,
the routes and middleware registered on the router, and the logger and
telemetry handles (modelled by name). -/
structure Server where
  address : String
  name : String
  enableMetrics : Bool
  enableTelemetry : Bool
  logging : Logging
  timeout : Timeout
  preLoadedHandlers : List Handler
  routerRoutes : List Handler
  routerMiddleware : List String
  telemetry : Option String
  logger : Option String
deriving DecidableEq, Repr

/-- The functional-option type `Option func(s *Server)`
(`options.go`). -/
def ServerOption := Server → Server

/-- `WithTimeout` (`options.go`): sets the five duration budgets. -/
def withTimeout (read request inflight tasks write : GoDuration) :
    ServerOption := fun s =>
  { s with timeout :=
    { readTimeout := read
      requestTimeout := request
      shutdownInFlightTimeout := inflight
      shutdownTaskTimeout := tasks
      writeTimeout := write } }

/-- `WithoutMetrics` (`options.go`): disables metrics. -/
def withoutMetrics : ServerOption := fun s => { s with enableMetrics := false }

/-- `WithoutTelemetry` (`options.go`): disables telemetry. -/
def withoutTelemetry : ServerOption := fun s =>
  { s with enableTelemetry := false }

/-- `WithoutLogging` (`options.go`): sets both levels to
`level.None.String()` and clears the file path. -/
def withoutLogging : ServerOption := fun s =>
  { s with logging :=
    { consoleLevel := "none", requestLevel := "none", filepath := "" } }

/-- `WithoutPreLoadedHandlers` (`options.go`): empties the pre-loaded
handler list. -/
def withoutPreLoadedHandlers : ServerOption := fun s =>
  { s with preLoadedHandlers := [] }

/-- `WithLoggingOptions` (`options.go`): sets the logging
configuration. -/
def withLoggingOptions (console request filepath : String) : ServerOption :=
  fun s =>
  { s with logging :=
    { consoleLevel := console, requestLevel := request
      filepath := filepath } }

/-- The options-processing loop of `New` (`webserver.go:285`): apply the
options to the server strictly in list order. -/
def applyOptions (opts : List ServerOption) (s : Server) : Server :=
  opts.foldl (fun s opt => opt s) s

/-- The accepted values of the `oneof=none fatal error info warn debug
trace` validate tag on the `Logging` levels (`webserver.go:70`). -/
def levelNames : List String :=
  ["none", "fatal", "error", "info", "warn", "debug", "trace"]

/-- Validation of the `Logging` struct per its tags (`webserver.go:70`):
both levels `required,gte=3,oneof=...`, the file path
`omitempty,gte=3`. -/
def validLogging (l : Logging) : Bool :=
  3 ≤ l.consoleLevel.length && levelNames.contains l.consoleLevel &&
  3 ≤ l.requestLevel.length && levelNames.contains l.requestLevel &&
  (l.filepath == "" || 3 ≤ l.filepath.length)

/-- Validation of the `Timeout` struct per its tags (`webserver.go:90`):
the only tag is `ltfield=ReadTimeout` on `RequestTimeout`, so the sole
constraint is a strictly smaller request budget; no tag constrains the
other four durations. -/
def validTimeout (t : Timeout) : Bool :=
  t.requestTimeout < t.readTimeout

/-- The `tcp_addr` validate tag on `Address` (`webserver.go:107`):
abstracted to the host-colon-port shape the repository uses. -/
def tcpAddrValid (a : String) : Bool := a.toList.contains ':'

/-- Modelled from the spec: `internal/validation.ValidateStruct`, absent
from the sources, which per the spec validates the configuration once at
construction (address, name, logging, and the Timeout Budget invariant
`request < read` as a configuration error).  The rules themselves are
taken from the `validate` struct tags present in `webserver.go`
(`tcp_addr` on `Address`, `required,gte=3` on `Name`, the `Logging` tags,
`ltfield=ReadTimeout` on `RequestTimeout`); tags on unexported fields are
not evaluated by the validator. -/
def validateStruct (s : Server) : Bool :=
  tcpAddrValid s.address && 3 ≤ s.name.length &&
  validLogging s.logging && validTimeout s.timeout

/-- The errors `New` can return: a failure creating the default
telemetry (`webserver.go:309`) or the validation error
(`webserver.go:323`). -/
inductive NewError
  | telemetryFailure
  | validationFailure
deriving DecidableEq, Repr

/-- Side effects `New` performs, in order: logger setup, default
telemetry creation, metrics publication.  Network binding
(`ListenAndServe`) happens only in `Start`, never in `New`; the
constructor `netBind` exists so that its absence from the trace of `New`
is a statable fact. -/
inductive Effect
  | loggerSetup
  | telemetryInit
  | publishMetrics
  | netBind (addr : String)
deriving DecidableEq, Repr

/-- Boolean success test for the construction result. -/
def newIsOk : Except NewError Server → Bool
  | Except.ok _ => true
  | Except.error _ => false

/-- The pre-loaded handlers `New` installs (`webserver.go:277`):
`handler.OK()`, `handler.Liveness()`, `handler.Stop()`. -/
def defaultPreLoadedHandlers : List Handler :=
  [{ method := "GET", path := "/" },
   { method := "GET", path := "/liveness" },
   { method := "GET", path := "/stop" }]

/-- The expvar route `New` registers when metrics are enabled
(`webserver.go:346`): `handler.ExpVar()`, `GET /debug/vars`. -/
def expVarRoute : Handler := { method := "GET", path := "/debug/vars" }

/-- Tail of `New` after telemetry wiring (`webserver.go:323` onward):
validate, and on success load the pre-loaded handlers onto the router
and, when metrics are enabled, publish the metrics and register the
expvar route.  A validation failure returns at once. -/
def newValidateAndFinish (s : Server) (eff : List Effect) :
    Except NewError Server × List Effect :=
  if validateStruct s then
    let s1 := { s with routerRoutes := s.routerRoutes ++ s.preLoadedHandlers }
    if s1.enableMetrics then
      (Except.ok { s1 with routerRoutes := s1.routerRoutes ++ [expVarRoute] },
        eff ++ [Effect.publishMetrics])
    else
      (Except.ok s1, eff)
  else
    (Except.error NewError.validationFailure, eff)

/-- Translation of `New` (`webserver.go:255`): build the server with its
defaults, run the options in order, set up the logger and the logging
middleware, wire telemetry when enabled (creating the default telemetry
when none was supplied; `telemetryOK` stands for whether that external
creation succeeds), then validate and finish.  No step of `New` binds
the network. -/
def newServer (name address : String) (opts : List ServerOption)
    (telemetryOK : Bool) : Except NewError Server × List Effect :=
  let s0 : Server :=
    { address := address
      name := name
      enableMetrics := true
      enableTelemetry := true
      logging := { consoleLevel := "error", requestLevel := "error"
                   filepath := "" }
      timeout := defaultTimeouts
      preLoadedHandlers := defaultPreLoadedHandlers
      routerRoutes := []
      routerMiddleware := []
      telemetry := none
      logger := none }
  let s1 := applyOptions opts s0
  let s2 := { s1 with logger := some name
                      routerMiddleware := s1.routerMiddleware ++ ["logger"] }
  if s2.enableTelemetry then
    if s2.telemetry.isNone then
      if telemetryOK then
        newValidateAndFinish
          { s2 with telemetry := some name
                    routerMiddleware := s2.routerMiddleware ++ ["otelmux"] }
          [Effect.loggerSetup, Effect.telemetryInit]
      else
        (Except.error NewError.telemetryFailure,
          [Effect.loggerSetup, Effect.telemetryInit])
    else
      newValidateAndFinish
        { s2 with routerMiddleware := s2.routerMiddleware ++ ["otelmux"] }
        [Effect.loggerSetup]
  else
    newValidateAndFinish s2 [Effect.loggerSetup]

/-- The four feature-disabling defaults `NewBasic` prepends
(`webserver.go:359`). -/
def newBasicDefaults : List ServerOption :=
  [withoutMetrics, withoutTelemetry, withoutLogging,
   withoutPreLoadedHandlers]

/-- Translation of `NewBasic` (`webserver.go:357`): merge the defaults
with the user options, defaults first, and delegate to `New`. -/
def newBasic (name address : String) (opts : List ServerOption)
    (telemetryOK : Bool) : Except NewError Server × List Effect :=
  newServer name address (newBasicDefaults ++ opts) telemetryOK

/-- A sample non-closed listener terminal error: a bind failure. -/
def sampleBindError : GoError :=
  GoError.netError "listen tcp :4446: address already in use"

/-- A sample shutdown environment: the drain finishes inside the budget
and the listener goroutine has delivered the closed sentinel. -/
def cleanEnv : ShutdownEnv :=
  { shutdownResult := none
    closeResult := none
    finalServerErr := GoError.errServerClosed }

/-!  Theorems settling the claims. -/

/-- C1: if the run is at its select with only a termination signal
pending, and the in-flight drain completes within
`ShutdownInFlightTimeout` (Shutdown returns nil), then `Start` performs
the full `ShutdownTaskTimeout` sleep — at least that much extra wait —
and returns the value collected from the listener channel, the closed
sentinel, which this package and its callers treat as the success
outcome. -/
theorem start_clean_shutdown_waits_task_and_succeeds
    (cfg : Timeout) (sig : Sig) (env : ShutdownEnv)
    (hdrain : env.shutdownResult = none)
    (hfinal : env.finalServerErr = GoError.errServerClosed) :
    startRun cfg { serverErrReady := none, signalReady := some sig }
        SelectPick.signal env = some (startSignalBranch cfg sig env)
    ∧ cfg.shutdownTaskTimeout ≤ (startSignalBranch cfg sig env).taskWaitNs
    ∧ isCleanStopOutcome (startSignalBranch cfg sig env).ret = true := by
  refine ⟨rfl, ?_, ?_⟩
  · simp [startSignalBranch, hdrain]
  · simp [startSignalBranch, hdrain, hfinal, isCleanStopOutcome]
    decide

/-- C1 witness: the theorem at the default budget, SIGTERM, and the
clean environment. -/
theorem start_clean_shutdown_waits_task_and_succeeds_witness :
    startRun defaultTimeouts
        { serverErrReady := none, signalReady := some Sig.sigterm }
        SelectPick.signal cleanEnv
      = some (startSignalBranch defaultTimeouts Sig.sigterm cleanEnv)
    ∧ defaultTimeouts.shutdownTaskTimeout
        ≤ (startSignalBranch defaultTimeouts Sig.sigterm cleanEnv).taskWaitNs
    ∧ isCleanStopOutcome
        (startSignalBranch defaultTimeouts Sig.sigterm cleanEnv).ret = true :=
  start_clean_shutdown_waits_task_and_succeeds defaultTimeouts Sig.sigterm
    cleanEnv rfl rfl

/-- C2: evaluation of the code at the failing input.  When `Shutdown`
returns `context.DeadlineExceeded` and the forced `Close` succeeds,
`Start` returns the raw deadline error, not the intended
`failed to gracefully shutdown...` wrapper: line 214 of `webserver.go`
applies `isTimeoutError` to the freshly declared, still-nil
`shutdownErr` instead of to `err`, so the wrapping branch is dead code
and the `else` arm assigns the bare error. -/
theorem start_graceful_timeout_returns_raw_deadline_error :
    (startSignalBranch defaultTimeouts Sig.sigterm
      { shutdownResult := some GoError.deadlineExceeded
        closeResult := none
        finalServerErr := GoError.errServerClosed }).ret
      = some GoError.deadlineExceeded := by
  rfl

/-- C3 counterexample: with the drain timed out
(`context.DeadlineExceeded`) and the forced close failing too, the
returned error wraps only the close failure; `errors.Is` cannot reach
the deadline cause, so the graceful-timeout failure is lost, refuting
the claim that both causes are preserved distinguishably. -/
theorem start_hard_close_failure_drops_timeout_cause :
    (startSignalBranch defaultTimeouts Sig.sigterm
      { shutdownResult := some GoError.deadlineExceeded
        closeResult := some (GoError.netError "close failed")
        finalServerErr := GoError.errServerClosed }).ret
      = some (GoError.customWrap hardShutdownMsg
          (GoError.netError "close failed"))
    ∧ errorsIs (GoError.customWrap hardShutdownMsg
          (GoError.netError "close failed"))
        GoError.deadlineExceeded = false := by
  exact ⟨rfl, by decide⟩

/-- C3 amended: when the forced close fails after a graceful-shutdown
error, `Start` returns a singly-wrapped `failed to hardly shutdown the
server` error whose only cause is the close failure; the
graceful-shutdown error is overwritten, whatever it was. -/
theorem start_hard_close_failure_wraps_only_close_error
    (cfg : Timeout) (sig : Sig) (e closeErr final : GoError) :
    (startSignalBranch cfg sig
      { shutdownResult := some e
        closeResult := some closeErr
        finalServerErr := final }).ret
      = some (GoError.customWrap hardShutdownMsg closeErr) :=
  rfl

/-- C4 counterexample: with a non-closed listener error and a signal
simultaneously ready, the signal pick is possible (Go select chooses
pseudo-randomly among ready cases), and that execution runs the
graceful-shutdown path instead of surfacing the listener error as the
immediate failure — refuting both the claimed determinism and the
claimed closed-sentinel precedence rule. -/
theorem select_tie_signal_branch_possible_on_listener_error :
    pickPossible
      { serverErrReady :=
          some (GoError.netError "listen tcp :4446: address already in use")
        signalReady := some Sig.sigterm } SelectPick.signal = true
    ∧ (startRun defaultTimeouts
        { serverErrReady :=
            some (GoError.netError "listen tcp :4446: address already in use")
          signalReady := some Sig.sigterm } SelectPick.signal
        cleanEnv).map StartResult.path
      = some StartPath.gracefulClean
    ∧ GoError.netError "listen tcp :4446: address already in use"
        ≠ GoError.errServerClosed := by
  refine ⟨rfl, rfl, by decide⟩

/-- C4 amended: when a listener terminal value and a signal are both
ready at the select, both picks are possible; the listener pick returns
the error immediately while the signal pick enters the shutdown
sequence and never takes the immediate-failure path.  Which one runs is
decided by the pseudo-random choice of the Go select, not by any
closed-sentinel test. -/
theorem select_both_ready_both_branches_possible
    (cfg : Timeout) (err : GoError) (sig : Sig) (env : ShutdownEnv) :
    pickPossible { serverErrReady := some err, signalReady := some sig }
        SelectPick.listener = true
    ∧ pickPossible { serverErrReady := some err, signalReady := some sig }
        SelectPick.signal = true
    ∧ startRun cfg { serverErrReady := some err, signalReady := some sig }
        SelectPick.listener env = some (startListenerBranch err)
    ∧ startRun cfg { serverErrReady := some err, signalReady := some sig }
        SelectPick.signal env = some (startSignalBranch cfg sig env)
    ∧ (startSignalBranch cfg sig env).path ≠ StartPath.failedImmediate := by
  refine ⟨rfl, rfl, rfl, rfl, ?_⟩
  cases h : env.shutdownResult <;> simp [startSignalBranch, h]

/-- C5 counterexample: after SIGINT is consumed, only SIGINT is reset;
a subsequent SIGTERM is still registered, so it is intercepted onto the
no-longer-read channel and suppressed instead of terminating the
process — refuting the claim that a repeat of either termination signal
terminates the process. -/
theorem second_other_signal_still_intercepted :
    dispositionAfter (startSignalBranch defaultTimeouts Sig.sigint cleanEnv)
        Sig.sigterm = SigDisposition.interceptedToChannel
    ∧ SigDisposition.interceptedToChannel
        ≠ SigDisposition.osDefaultTerminate := by
  exact ⟨rfl, by decide⟩

/-- C5 amended: `signal.Reset(sig)` restores OS-default handling only
for the signal that was received — a repeat of that same signal
terminates the process immediately — while the other termination signal
remains registered and is intercepted (suppressed) on every shutdown
path. -/
theorem signal_reset_only_received_signal
    (cfg : Timeout) (sig s : Sig) (env : ShutdownEnv) :
    dispositionAfter (startSignalBranch cfg sig env) sig
        = SigDisposition.osDefaultTerminate
    ∧ (s ≠ sig →
        dispositionAfter (startSignalBranch cfg sig env) s
          = SigDisposition.interceptedToChannel) := by
  have hreg : (startSignalBranch cfg sig env).signalsRegistered
      = notifiedSignals.filter (fun s => s != sig) := by
    cases h : env.shutdownResult <;> simp [startSignalBranch, h]
  constructor
  · simp only [dispositionAfter]
    rw [hreg]
    cases sig <;> decide
  · intro hne
    simp only [dispositionAfter]
    rw [hreg]
    cases sig <;> cases s <;> first | exact absurd rfl hne | decide

/-- C5 witness: the amended theorem at SIGINT received, SIGTERM as the
other signal, in the clean environment. -/
theorem signal_reset_only_received_signal_witness :
    dispositionAfter (startSignalBranch defaultTimeouts Sig.sigint cleanEnv)
        Sig.sigint = SigDisposition.osDefaultTerminate
    ∧ dispositionAfter (startSignalBranch defaultTimeouts Sig.sigint cleanEnv)
        Sig.sigterm = SigDisposition.interceptedToChannel :=
  ⟨(signal_reset_only_received_signal defaultTimeouts Sig.sigint Sig.sigterm
      cleanEnv).1,
   (signal_reset_only_received_signal defaultTimeouts Sig.sigint Sig.sigterm
      cleanEnv).2 (by decide)⟩

/-- C6 counterexample: under the default budget, a handler sleeping 3s
(request budget 1s) yields a response whose status is 503
(`http.StatusServiceUnavailable`, which the package test also expects
for `/slow`), not 408 — refuting the claimed 408-equivalent status. -/
theorem slow_request_gets_503_not_408 :
    (serveRequest defaultTimeouts 0 (3 * second)
        { status := 200, body := "OK" }).map (fun out => out.1.status)
      = some 503
    ∧ (serveRequest defaultTimeouts 0 (3 * second)
        { status := 200, body := "OK" }).map (fun out => out.1.status)
      ≠ some 408 := by
  refine ⟨by decide, by decide⟩

/-- C6 amended: a request whose handler outlasts the request budget but
stays under the read and write budgets receives exactly one response,
with status 503 Service Unavailable (the status `http.TimeoutHandler`
writes; the 408 of `ErrRequesTimeout` lives only in the customerror
metadata whose message becomes the body) and the fixed body
`ErrRequesTimeout.Error()`, and the late writes of the slow handler are
discarded. -/
theorem slow_handler_single_fixed_timeout_response
    (cfg : Timeout) (readT handlerT : GoDuration) (resp : HttpResponse)
    (hread : readT ≤ cfg.readTimeout)
    (hslow : cfg.requestTimeout < handlerT)
    (hwrite : handlerT < cfg.writeTimeout) :
    serveRequest cfg readT handlerT resp
      = some ({ status := 503, body := errRequesTimeoutBody }, true) := by
  have h1 : ¬ (readT > cfg.readTimeout) := not_lt.mpr hread
  have h2 : handlerT > cfg.requestTimeout := hslow
  have h3 : cfg.requestTimeout < cfg.writeTimeout := lt_trans hslow hwrite
  simp [serveRequest, timeoutHandler, h1, h2, h3]

/-- C6 witness: the amended theorem at the default budget with a 2s
handler. -/
theorem slow_handler_single_fixed_timeout_response_witness :
    serveRequest defaultTimeouts 0 (2 * second) { status := 200, body := "OK" }
      = some ({ status := 503, body := errRequesTimeoutBody }, true) :=
  slow_handler_single_fixed_timeout_response defaultTimeouts 0 (2 * second)
    { status := 200, body := "OK" } (by decide) (by decide) (by decide)

/-- C7: with a well-formed address and name, construction succeeds
exactly when the timeout budget satisfies `request < read` (the
`ltfield=ReadTimeout` tag, checked by `ValidateStruct`, failing as a
configuration error), and no step of `New` binds the network on either
outcome. -/
theorem new_validates_request_lt_read
    (name address : String) (t : Timeout)
    (haddr : tcpAddrValid address = true)
    (hname : 3 ≤ name.length) :
    (newIsOk (newServer name address
        [withTimeout t.readTimeout t.requestTimeout t.shutdownInFlightTimeout
          t.shutdownTaskTimeout t.writeTimeout] true).1 = true
      ↔ t.requestTimeout < t.readTimeout)
    ∧ Effect.netBind address ∉ (newServer name address
        [withTimeout t.readTimeout t.requestTimeout t.shutdownInFlightTimeout
          t.shutdownTaskTimeout t.writeTimeout] true).2 := by
  have hlog : validLogging
      { consoleLevel := "error", requestLevel := "error", filepath := "" }
        = true := by decide
  by_cases h : t.requestTimeout < t.readTimeout <;>
    simp [newServer, applyOptions, withTimeout, newValidateAndFinish,
      validateStruct, validTimeout, newIsOk, haddr, hname, h, hlog]

/-- C7 witness: the theorem at the test-suite server name and address
with the default budget. -/
theorem new_validates_request_lt_read_witness :
    (newIsOk (newServer "test-server" "0.0.0.0:4446"
        [withTimeout defaultTimeouts.readTimeout defaultTimeouts.requestTimeout
          defaultTimeouts.shutdownInFlightTimeout
          defaultTimeouts.shutdownTaskTimeout
          defaultTimeouts.writeTimeout] true).1 = true
      ↔ defaultTimeouts.requestTimeout < defaultTimeouts.readTimeout)
    ∧ Effect.netBind "0.0.0.0:4446" ∉ (newServer "test-server" "0.0.0.0:4446"
        [withTimeout defaultTimeouts.readTimeout defaultTimeouts.requestTimeout
          defaultTimeouts.shutdownInFlightTimeout
          defaultTimeouts.shutdownTaskTimeout
          defaultTimeouts.writeTimeout] true).2 :=
  new_validates_request_lt_read "test-server" "0.0.0.0:4446" defaultTimeouts
    (by decide) (by decide)

/-- C8 counterexample: the listener-error exit (`return err` straight
out of the select) returns its outcome while both signal subscriptions
are still armed and without the controller ever touching the listener
handle — refuting the claim that every exit path releases both
resources before the outcome is returned. -/
theorem listener_error_exit_leaves_signals_armed :
    (startListenerBranch sampleBindError).signalsRegistered
        = [Sig.sigint, Sig.sigterm]
    ∧ (startListenerBranch sampleBindError).signalsRegistered ≠ []
    ∧ (startListenerBranch sampleBindError).ret.isSome = true := by
  refine ⟨rfl, by decide, rfl⟩

/-- C8 amended: no exit path fully disarms the signal subscription.
The listener-error exit returns with both signals still registered and
neither `Shutdown` nor `Close` called (the serve loop has already
terminated on its own); the signal exits disarm only the received
signal, always attempt `Shutdown`, and call `Close` exactly when
`Shutdown` errored. -/
theorem resource_release_per_exit_path
    (err : GoError) (cfg : Timeout) (sig : Sig) (env : ShutdownEnv) :
    ((startListenerBranch err).signalsRegistered = notifiedSignals
      ∧ (startListenerBranch err).shutdownAttempted = false
      ∧ (startListenerBranch err).closeCalled = false)
    ∧ ((startSignalBranch cfg sig env).signalsRegistered
          = notifiedSignals.filter (fun s => s != sig)
      ∧ (startSignalBranch cfg sig env).resetCalled = [sig]
      ∧ (startSignalBranch cfg sig env).shutdownAttempted = true
      ∧ (startSignalBranch cfg sig env).closeCalled
          = env.shutdownResult.isSome) := by
  cases h : env.shutdownResult <;>
    simp [startListenerBranch, startSignalBranch, h]

/-- C9 counterexample: a budget with zero request, in-flight, task and
write durations passes construction (the only validated constraint on
the budget is `request < read`), refuting the claim that a zero
duration anywhere in the budget fails construction. -/
theorem new_accepts_zero_durations :
    newIsOk (newServer "test-server" "0.0.0.0:4446"
      [withTimeout (3 * second) 0 0 0 0] true).1 = true := by
  decide

/-- C9 amended: construction checks only `request < read`; with a
well-formed name and address, any budget satisfying it is accepted even
when the in-flight, task and write budgets are all zero. -/
theorem new_zero_budget_accepted_when_request_lt_read
    (name address : String) (read request : GoDuration)
    (haddr : tcpAddrValid address = true)
    (hname : 3 ≤ name.length)
    (hreq : request < read) :
    newIsOk (newServer name address
      [withTimeout read request 0 0 0] true).1 = true := by
  have hlog : validLogging
      { consoleLevel := "error", requestLevel := "error", filepath := "" }
        = true := by decide
  simp [newServer, applyOptions, withTimeout, newValidateAndFinish,
    validateStruct, validTimeout, newIsOk, haddr, hname, hreq, hlog]

/-- C9 witness: the amended theorem at the test-suite name and address
with read one second and everything else zero. -/
theorem new_zero_budget_accepted_when_request_lt_read_witness :
    newIsOk (newServer "test-server" "0.0.0.0:4446"
      [withTimeout second 0 0 0 0] true).1 = true :=
  new_zero_budget_accepted_when_request_lt_read "test-server" "0.0.0.0:4446"
    second 0 (by decide) (by decide) (by decide)

/-- C10: `NewBasic` is `New` on the four feature-disabling defaults
prepended to the user options; the options-processing loop of `New`
folds strictly left to right, so the defaults run first and every
user-supplied option runs after them — in particular a trailing user
option acts on the fully defaulted state, and a user
`WithLoggingOptions` overrides the `WithoutLogging` default. -/
theorem newbasic_defaults_before_user_options
    (name address : String) (opts : List ServerOption) (telemetryOK : Bool)
    (s : Server) :
    newBasic name address opts telemetryOK
        = newServer name address (newBasicDefaults ++ opts) telemetryOK
    ∧ applyOptions (newBasicDefaults ++ opts) s
        = applyOptions opts (applyOptions newBasicDefaults s)
    ∧ (∀ opt : ServerOption,
        applyOptions (newBasicDefaults ++ (opts ++ [opt])) s
          = opt (applyOptions (newBasicDefaults ++ opts) s))
    ∧ (∀ console request filepath,
        (applyOptions (newBasicDefaults ++ [withLoggingOptions console
            request filepath]) s).logging
          = { consoleLevel := console, requestLevel := request
              filepath := filepath }) := by
  refine ⟨rfl, ?_, ?_, ?_⟩
  · simp [applyOptions, List.foldl_append]
  · intro opt
    simp [applyOptions, List.foldl_append]
  · intro console request filepath
    rfl

end WebServer
